import Mathlib

/-!
# Verification of the EDA-simplifier column classifier and categorical plot builder

Shallow embedding of `src/eda_simplifier/simplify.py`.

A pandas `DataFrame` is modelled as a header (column names with dtypes) plus a
list of rows (cell values as strings; the classifier only inspects dtypes, the
categorical plot builder only compares cell values for equality, so strings
suffice).  Python `set` values are modelled as duplicate-free lists in
first-insertion order; all claims are stated via membership, so the unspecified
enumeration order of a Python set is irrelevant.  Python exceptions are
modelled by the `PyError` type and fallible functions return `Except PyError`.
-/

namespace EDA

/-- Python exceptions raised by the module.  `emptyInput` and `conflict` model
the two `ValueError`s raised by `_ambiguous_columns_split`; `keyNotFound`
models pandas/dict `KeyError`; `typeError` models `TypeError`; `valueError`
models the remaining `ValueError`s of `categorical_plot`. -/
inductive PyError where
  | emptyInput : PyError
  | conflict (cols : List String) : PyError
  | keyNotFound (key : String) : PyError
  | typeError (msg : String) : PyError
  | valueError (msg : String) : PyError
deriving DecidableEq, Repr

deriving instance DecidableEq for Except

/-- The pandas dtypes relevant to this module.  `select_dtypes(include="number")`
selects exactly the `np.number` subtypes: integer, floating point and complex
kinds.  Boolean, object/string, datetime and categorical dtypes are *not*
selected by `"number"` (pandas requires `include="bool"` to select boolean
columns). -/
inductive Dtype where
  | int64 : Dtype
  | float64 : Dtype
  | complex128 : Dtype
  | bool : Dtype
  | object : Dtype
  | datetime : Dtype
  | category : Dtype
deriving DecidableEq, Repr

/-- Whether `select_dtypes(include="number")` keeps a column of this dtype:
true exactly for the `np.number` subtypes (int, float, complex).  Boolean
columns are excluded by pandas. -/
def Dtype.isNumber : Dtype → Bool
  | .int64 => true
  | .float64 => true
  | .complex128 => true
  | _ => false

/-- A pandas DataFrame: named, dtyped columns and a list of rows.  Each row is
a list of cell values aligned with `header`. -/
structure DataFrame where
  header : List (String × Dtype)
  rows : List (List String)
deriving DecidableEq, Repr

/-- Python `df.columns` — the column names in order. -/
def DataFrame.columns (df : DataFrame) : List String :=
  df.header.map Prod.fst

/-- Python `df.empty` — true when the frame has no columns or no rows. -/
def DataFrame.emptyFrame (df : DataFrame) : Bool :=
  df.header.isEmpty || df.rows.isEmpty

/-- Python `set(xs)` — duplicate-free list keeping first occurrences. -/
def pyset (xs : List String) : List String :=
  xs.foldl (fun acc x => if acc.contains x then acc else acc ++ [x]) []

/-- Python `s.add(x)` — mutating set add, modelled functionally. -/
def pyAdd (l : List String) (x : String) : List String :=
  if l.contains x then l else l ++ [x]

/-- Dtype of column `n` (defaults to `object`; callers only use it for names
that are actual columns). -/
def DataFrame.lookupDtype (df : DataFrame) (n : String) : Dtype :=
  ((df.header.find? (fun p => p.1 == n)).map Prod.snd).getD .object

/-- Position of column `n` in the header (defaults to 0; callers only use it
for names that are actual columns). -/
def DataFrame.colPos (df : DataFrame) (n : String) : Nat :=
  (df.header.findIdx? (fun p => p.1 == n)).getD 0

/-- Python `df[names]` — column projection; raises `KeyError` when a requested name
is not a column (pandas raises on the missing labels). -/
def DataFrame.select (df : DataFrame) (names : List String) :
    Except PyError DataFrame :=
  match names.find? (fun n => !df.columns.contains n) with
  | some n => .error (.keyNotFound n)
  | none =>
      .ok { header := names.map (fun n => (n, df.lookupDtype n)),
            rows := df.rows.map (fun r => names.map (fun n => r.getD (df.colPos n) "")) }

/-- A Python dict with string keys and list-of-string values, as passed for
`ambiguous_column_types`. -/
structure OverrideDict where
  entries : List (String × List String)
deriving DecidableEq, Repr

/-- Python `d[k]` — dict lookup; raises `KeyError` when the key is absent. -/
def OverrideDict.get (d : OverrideDict) (k : String) : Except PyError (List String) :=
  match d.entries.find? (fun p => p.1 == k) with
  | some p => .ok p.2
  | none => .error (.keyNotFound k)

/-- Python `set(l).intersection(df.columns)` — sanitized override set: the requested
names that are actual columns, as a set. -/
def sanitize (df : DataFrame) (l : List String) : List String :=
  pyset (l.filter (fun n => df.columns.contains n))

/-- The intersection of the two sanitized override sets (the `overlap` local
of `_ambiguous_columns_split`). -/
def overlapOf (df : DataFrame) (ln lc : List String) : List String :=
  (sanitize df ln).filter (fun n => (sanitize df lc).contains n)

/-- Python `set(df.select_dtypes(include="number").columns)`. -/
def defaultNumericCols (df : DataFrame) : List String :=
  pyset ((df.header.filter (fun p => p.2.isNumber)).map Prod.fst)

/-- Python `set(df.select_dtypes(exclude="number").columns)`. -/
def defaultCategoricalCols (df : DataFrame) : List String :=
  pyset ((df.header.filter (fun p => !p.2.isNumber)).map Prod.fst)

/-- Python `(numeric_cols | ambiguously_numeric) - ambiguously_categorical`, then
`.add(target)` — the final numeric column set. -/
def finalNumeric (df : DataFrame) (ln lc : List String) (target : String) :
    List String :=
  pyAdd ((pyset (defaultNumericCols df ++ sanitize df ln)).filter
    (fun n => !(sanitize df lc).contains n)) target

/-- Python `(categorical_cols | ambiguously_categorical) - ambiguously_numeric`, then
`.add(target)` — the final categorical column set. -/
def finalCategorical (df : DataFrame) (ln lc : List String) (target : String) :
    List String :=
  pyAdd ((pyset (defaultCategoricalCols df ++ sanitize df lc)).filter
    (fun n => !(sanitize df ln).contains n)) target

/-- The result dict `{"numeric": numeric_df, "categorical": categorical_df}`. -/
structure SplitResult where
  numeric : DataFrame
  categorical : DataFrame
deriving DecidableEq, Repr

/-- Python `_ambiguous_columns_split(pd_dataframe, target_column, ambiguous_column_types)`.
Order of effects mirrors the Python: empty check, default dict, dict key
lookups (numeric first), sanitization, conflict check, set algebra, target
addition, column projections (numeric first). -/
def ambiguous_columns_split (df : DataFrame) (target : String)
    (ambOpt : Option OverrideDict) : Except PyError SplitResult :=
  if df.emptyFrame then .error .emptyInput
  else
    match (ambOpt.getD ⟨[("numeric", []), ("categorical", [])]⟩).get "numeric",
          (ambOpt.getD ⟨[("numeric", []), ("categorical", [])]⟩).get "categorical" with
    | .error e, _ => .error e
    | .ok _, .error e => .error e
    | .ok numOv, .ok catOv =>
        if (overlapOf df numOv catOv).isEmpty then
          match df.select (finalNumeric df numOv catOv target),
                df.select (finalCategorical df numOv catOv target) with
          | .error e, _ => .error e
          | .ok _, .error e => .error e
          | .ok ndf, .ok cdf => .ok ⟨ndf, cdf⟩
        else .error (.conflict (overlapOf df numOv catOv))

/-- Whether a classifier outcome is the override-conflict `ValueError`. -/
def isConflictResult : Except PyError SplitResult → Bool
  | .error (.conflict _) => true
  | _ => false

/-! ## The categorical plot builder -/

/-- The runtime shapes a Python caller can pass for `categorical_features`:
`None`, a list, or a non-list value (string, tuple, int, ...). -/
inductive PyFeatureArg where
  | noneArg : PyFeatureArg
  | listArg (xs : List String) : PyFeatureArg
  | strArg (s : String) : PyFeatureArg
  | tupleArg (xs : List String) : PyFeatureArg
  | intArg (n : Int) : PyFeatureArg
deriving DecidableEq, Repr

/-- Python `isinstance(arg, list)`. -/
def PyFeatureArg.isList : PyFeatureArg → Bool
  | .listArg _ => true
  | _ => false

/-- Python `arg is None`. -/
def PyFeatureArg.isNone : PyFeatureArg → Bool
  | .noneArg => true
  | _ => false

/-- Python `len(arg)` — defined for sized values, `TypeError` for ints (and `None`,
which the code never reaches thanks to the `is None or` short circuit). -/
def PyFeatureArg.pyLen : PyFeatureArg → Except PyError Nat
  | .noneArg => .error (.typeError "object of type NoneType has no len()")
  | .listArg xs => .ok xs.length
  | .strArg s => .ok s.length
  | .tupleArg xs => .ok xs.length
  | .intArg _ => .error (.typeError "object of type int has no len()")

/-- An Altair chart, abstracted to what the claims are about: the mark kind,
the encoded feature, and the data the chart was built from. -/
structure Chart where
  mark : String
  feature : String
  data : DataFrame
deriving DecidableEq, Repr

/-- Placeholder chart used as the default for list indexing in statements. -/
def defaultChart : Chart := ⟨"", "", ⟨[], []⟩⟩

/-- Values of column `f`, in row order (empty when `f` is not a column; the
builder validates feature names before using this). -/
def DataFrame.colValues (df : DataFrame) (f : String) : List String :=
  match df.header.findIdx? (fun p => p.1 == f) with
  | some i => df.rows.map (fun r => r.getD i "")
  | none => []

/-- Python `df[df[f].isin(vals)]` — keep the rows whose value in column `f` is among
`vals` (unchanged when `f` is not a column; the builder validates feature
names before using this). -/
def DataFrame.filterIsin (df : DataFrame) (f : String) (vals : List String) :
    DataFrame :=
  match df.header.findIdx? (fun p => p.1 == f) with
  | some i => ⟨df.header, df.rows.filter (fun r => vals.contains (r.getD i ""))⟩
  | none => df

/-- Stable descending insertion by count: the new pair goes after every pair
with a count at least as large. -/
def insertDesc (p : String × Nat) : List (String × Nat) → List (String × Nat)
  | [] => [p]
  | q :: qs => if p.2 ≤ q.2 then q :: insertDesc p qs else p :: q :: qs

/-- Python `series.value_counts()` — pairs (value, count) sorted by count descending,
ties in order of first appearance. -/
def value_counts (vs : List String) : List (String × Nat) :=
  ((pyset vs).map (fun v => (v, vs.count v))).foldl
    (fun acc p => insertDesc p acc) []

/-- Python `value_counts().nlargest(maxCat).index.tolist()` — the (at most) `maxCat`
most frequent values. -/
def top_values (vs : List String) (maxCat : Nat) : List String :=
  ((value_counts vs).take maxCat).map Prod.fst

/-- Python `[col for col in df.columns if col != target_column]`. -/
def defaultFeatures (df : DataFrame) (target : String) : List String :=
  df.columns.filter (fun c => c ≠ target)

/-- The `categorical_features is None or len(categorical_features) == 0`
replacement step, including the `TypeError` a `len()` call can raise. -/
def resolveFeatures (df : DataFrame) (target : String) (fa : PyFeatureArg) :
    Except PyError PyFeatureArg :=
  if fa.isNone then .ok (.listArg (defaultFeatures df target))
  else match fa.pyLen with
    | .error e => .error e
    | .ok n => if n == 0 then .ok (.listArg (defaultFeatures df target)) else .ok fa

/-- The plotting loop of `categorical_plot`: for each feature, compute its top
values on the *current* frame, overwrite the frame with the filtered rows
(`df = df[df[feature].isin(top_features)].copy()`), and emit the frequency bar
chart and the feature-vs-target chart, both built from the filtered frame. -/
def catPlotLoop (target : String) (catTarget : Bool) (maxCat : Nat) :
    List String → DataFrame → List Chart
  | [], _ => []
  | f :: rest, df =>
      let top := top_values (df.colValues f) maxCat
      let df2 := df.filterIsin f top
      ⟨"bar", f, df2⟩ ::
        ⟨if catTarget then "bar" else "boxplot", f, df2⟩ ::
          catPlotLoop target catTarget maxCat rest df2

/-- Python `categorical_plot(df, target_column, categorical_target, max_categories,
categorical_features)`, for a genuine DataFrame first argument and a genuine
string target (the isinstance checks on those pass by typing).  Validation
order mirrors the Python source. -/
def categorical_plot (df : DataFrame) (target : String) (catTarget : Bool)
    (maxCat : Nat) (fa : PyFeatureArg) : Except PyError (List Chart) :=
  if df.emptyFrame then .error (.valueError "df must not be empty")
  else if !df.columns.contains target then
    .error (.valueError "Target column not found in dataframe")
  else match resolveFeatures df target fa with
    | .error e => .error e
    | .ok resolved =>
        match resolved with
        | .listArg feats =>
            if feats.isEmpty then .error (.valueError "No categorical features to plot")
            else match feats.find? (fun f => !df.columns.contains f) with
              | some f => .error (.valueError ("Column not found: " ++ f))
              | none => .ok (catPlotLoop target catTarget maxCat feats df)
        | _ => .error (.typeError "categorical_features must be a list")

/-- Modelled from the claim: the rows of `df` whose value in `f` is among the
top `maxCat` most frequent values of `f`, frequencies computed over `df`
itself. -/
def claimFreqRows (df : DataFrame) (f : String) (maxCat : Nat) :
    List (List String) :=
  (df.filterIsin f (top_values (df.colValues f) maxCat)).rows

/-- Modelled from the amended claim: the dataset remaining after successively
keeping, for each listed feature in order, only the rows whose value in that
feature is among its top `maxCat` values as computed on the data remaining at
that point. -/
def chainFiltered (maxCat : Nat) : DataFrame → List String → DataFrame
  | df, [] => df
  | df, f :: rest =>
      chainFiltered maxCat (df.filterIsin f (top_values (df.colValues f) maxCat)) rest

/-! ## Concrete inputs used in witnesses and counterexamples -/

/-- The spec's running example: genre/popularity/is_explicit/track_id. -/
def dfExample : DataFrame :=
  ⟨[("genre", Dtype.object), ("popularity", Dtype.int64),
    ("is_explicit", Dtype.object), ("track_id", Dtype.int64)],
   [["Pop", "88", "Explicit", "0"], ["Rock", "55", "Clean", "1"]]⟩

/-- A frame with one boolean column besides the integer target. -/
def dfBoolInput : DataFrame :=
  ⟨[("flag", Dtype.bool), ("t", Dtype.int64)], [["True", "1"]]⟩

/-- A small frame with a text column and an integer target. -/
def dfSmall : DataFrame :=
  ⟨[("g", Dtype.object), ("t", Dtype.int64)], [["Pop", "1"]]⟩

/-- A frame with zero rows (and some columns): `df.empty` is true. -/
def dfNoRows : DataFrame :=
  ⟨[("g", Dtype.object)], []⟩

/-- Two text features and a numeric target; crafted so that the second
feature's top value over the whole frame ("y") differs from its top value
over the rows remaining after filtering by the first feature ("x"). -/
def dfTwoFeatures : DataFrame :=
  ⟨[("f1", Dtype.object), ("f2", Dtype.object), ("t", Dtype.int64)],
   [["a", "x", "0"], ["a", "x", "0"], ["a", "y", "0"],
    ["b", "y", "0"], ["b", "y", "0"]]⟩

/-! ## Membership facts about the set model -/

theorem contains_true_iff (l : List String) (a : String) :
    l.contains a = true ↔ a ∈ l :=
  List.elem_iff

theorem contains_false_iff (l : List String) (a : String) :
    l.contains a = false ↔ a ∉ l := by
  constructor
  · intro h hmem
    rw [(contains_true_iff l a).mpr hmem] at h
    cases h
  · intro h
    cases hc : l.contains a
    · rfl
    · exact absurd ((contains_true_iff l a).mp hc) h

theorem not_contains_iff (l : List String) (a : String) :
    ((!l.contains a) = true) ↔ a ∉ l := by
  cases hc : l.contains a
  · exact iff_of_true rfl ((contains_false_iff l a).mp hc)
  · exact iff_of_false (by simp) (fun h => h ((contains_true_iff l a).mp hc))

theorem mem_pyfold (xs acc : List String) (a : String) :
    a ∈ xs.foldl (fun acc x => if acc.contains x then acc else acc ++ [x]) acc ↔
      a ∈ acc ∨ a ∈ xs := by
  induction xs generalizing acc with
  | nil => simp
  | cons x xs ih =>
    simp only [List.foldl_cons]
    by_cases hx : x ∈ acc
    · rw [if_pos ((contains_true_iff acc x).mpr hx), ih]
      simp only [List.mem_cons]
      constructor
      · rintro (h | h) <;> tauto
      · rintro (h | h | h)
        · tauto
        · subst h; tauto
        · tauto
    · rw [if_neg (fun hc => hx ((contains_true_iff acc x).mp hc)), ih]
      simp only [List.mem_append, List.mem_singleton, List.mem_cons]
      tauto

theorem mem_pyset (xs : List String) (a : String) : a ∈ pyset xs ↔ a ∈ xs := by
  unfold pyset
  rw [mem_pyfold]
  simp

theorem mem_pyAdd (l : List String) (x a : String) :
    a ∈ pyAdd l x ↔ a ∈ l ∨ a = x := by
  unfold pyAdd
  by_cases h : x ∈ l
  · rw [if_pos ((contains_true_iff l x).mpr h)]
    constructor
    · tauto
    · rintro (h' | h')
      · exact h'
      · subst h'; exact h
  · rw [if_neg (fun hc => h ((contains_true_iff l x).mp hc))]
    simp

theorem mem_sanitize (df : DataFrame) (l : List String) (a : String) :
    a ∈ sanitize df l ↔ a ∈ l ∧ a ∈ df.columns := by
  unfold sanitize
  simp [mem_pyset, List.mem_filter]

theorem mem_overlapOf (df : DataFrame) (ln lc : List String) (a : String) :
    a ∈ overlapOf df ln lc ↔ a ∈ df.columns ∧ a ∈ ln ∧ a ∈ lc := by
  unfold overlapOf
  simp [List.mem_filter, mem_sanitize]
  tauto

theorem mem_columns (df : DataFrame) (a : String) :
    a ∈ df.columns ↔ ∃ dt, (a, dt) ∈ df.header := by
  unfold DataFrame.columns
  constructor
  · intro h
    obtain ⟨⟨n, dt⟩, hmem, rfl⟩ := List.mem_map.mp h
    exact ⟨dt, hmem⟩
  · rintro ⟨dt, hmem⟩
    exact List.mem_map.mpr ⟨(a, dt), hmem, rfl⟩

theorem mem_defaultNumericCols (df : DataFrame) (a : String) :
    a ∈ defaultNumericCols df ↔ ∃ dt, (a, dt) ∈ df.header ∧ dt.isNumber = true := by
  unfold defaultNumericCols
  rw [mem_pyset]
  constructor
  · intro h
    obtain ⟨⟨n, dt⟩, hmem, rfl⟩ := List.mem_map.mp h
    obtain ⟨hm, hp⟩ := List.mem_filter.mp hmem
    exact ⟨dt, hm, hp⟩
  · rintro ⟨dt, hmem, hp⟩
    exact List.mem_map.mpr ⟨(a, dt), List.mem_filter.mpr ⟨hmem, hp⟩, rfl⟩

theorem mem_defaultCategoricalCols (df : DataFrame) (a : String) :
    a ∈ defaultCategoricalCols df ↔
      ∃ dt, (a, dt) ∈ df.header ∧ dt.isNumber = false := by
  unfold defaultCategoricalCols
  rw [mem_pyset]
  constructor
  · intro h
    obtain ⟨⟨n, dt⟩, hmem, rfl⟩ := List.mem_map.mp h
    obtain ⟨hm, hp⟩ := List.mem_filter.mp hmem
    exact ⟨dt, hm, by simpa using hp⟩
  · rintro ⟨dt, hmem, hp⟩
    exact List.mem_map.mpr ⟨(a, dt), List.mem_filter.mpr ⟨hmem, by simp [hp]⟩, rfl⟩

theorem mem_finalNumeric (df : DataFrame) (ln lc : List String) (t a : String) :
    a ∈ finalNumeric df ln lc t ↔
      a = t ∨ ((a ∈ defaultNumericCols df ∨ (a ∈ ln ∧ a ∈ df.columns)) ∧
        ¬(a ∈ lc ∧ a ∈ df.columns)) := by
  unfold finalNumeric
  rw [mem_pyAdd]
  simp only [List.mem_filter, mem_pyset, List.mem_append, not_contains_iff,
    mem_sanitize]
  tauto

theorem mem_finalCategorical (df : DataFrame) (ln lc : List String) (t a : String) :
    a ∈ finalCategorical df ln lc t ↔
      a = t ∨ ((a ∈ defaultCategoricalCols df ∨ (a ∈ lc ∧ a ∈ df.columns)) ∧
        ¬(a ∈ ln ∧ a ∈ df.columns)) := by
  unfold finalCategorical
  rw [mem_pyAdd]
  simp only [List.mem_filter, mem_pyset, List.mem_append, not_contains_iff,
    mem_sanitize]
  tauto

theorem finalNumeric_subset (df : DataFrame) (ln lc : List String) (t a : String)
    (ht : t ∈ df.columns) (ha : a ∈ finalNumeric df ln lc t) : a ∈ df.columns := by
  rcases (mem_finalNumeric df ln lc t a).mp ha with rfl | ⟨hin, _⟩
  · exact ht
  · rcases hin with hnum | ⟨_, hcol⟩
    · obtain ⟨dt, hmem, _⟩ := (mem_defaultNumericCols df a).mp hnum
      exact (mem_columns df a).mpr ⟨dt, hmem⟩
    · exact hcol

theorem finalCategorical_subset (df : DataFrame) (ln lc : List String) (t a : String)
    (ht : t ∈ df.columns) (ha : a ∈ finalCategorical df ln lc t) : a ∈ df.columns := by
  rcases (mem_finalCategorical df ln lc t a).mp ha with rfl | ⟨hin, _⟩
  · exact ht
  · rcases hin with hcat | ⟨_, hcol⟩
    · obtain ⟨dt, hmem, _⟩ := (mem_defaultCategoricalCols df a).mp hcat
      exact (mem_columns df a).mpr ⟨dt, hmem⟩
    · exact hcol

theorem target_mem_finalNumeric (df : DataFrame) (ln lc : List String) (t : String) :
    t ∈ finalNumeric df ln lc t :=
  (mem_finalNumeric df ln lc t t).mpr (Or.inl rfl)

theorem target_mem_finalCategorical (df : DataFrame) (ln lc : List String) (t : String) :
    t ∈ finalCategorical df ln lc t :=
  (mem_finalCategorical df ln lc t t).mpr (Or.inl rfl)

/-! ## Column projection -/

theorem select_ok_of_subset (df : DataFrame) (names : List String)
    (h : ∀ n ∈ names, n ∈ df.columns) :
    ∃ d, df.select names = .ok d ∧ d.columns = names := by
  unfold DataFrame.select
  have hfind : names.find? (fun n => !df.columns.contains n) = none := by
    rw [List.find?_eq_none]
    intro x hx
    simpa using h x hx
  rw [hfind]
  refine ⟨_, rfl, ?_⟩
  unfold DataFrame.columns
  simp [Function.comp_def]

theorem select_ok_subset (df : DataFrame) (names : List String) (d : DataFrame)
    (h : df.select names = .ok d) : ∀ n ∈ names, n ∈ df.columns := by
  unfold DataFrame.select at h
  intro n hn
  cases hfind : names.find? (fun n => !df.columns.contains n) with
  | some m => rw [hfind] at h; cases h
  | none =>
      have := List.find?_eq_none.mp hfind n hn
      simpa using this

/-! ## Unique column names -/

theorem nodup_keys_unique {l : List (String × Dtype)}
    (h : (l.map Prod.fst).Nodup) {c : String} {dt dt' : Dtype}
    (h1 : (c, dt) ∈ l) (h2 : (c, dt') ∈ l) : dt = dt' := by
  induction l with
  | nil => cases h1
  | cons p ps ih =>
      simp only [List.map_cons, List.nodup_cons] at h
      rcases List.mem_cons.mp h1 with h1' | h1' <;>
        rcases List.mem_cons.mp h2 with h2' | h2'
      · have h12 : ((c, dt) : String × Dtype) = (c, dt') := h1'.trans h2'.symm
        injection h12 with h_fst h_snd
      · exfalso
        apply h.1
        rw [← h1']
        exact List.mem_map.mpr ⟨(c, dt'), h2', rfl⟩
      · exfalso
        apply h.1
        rw [← h2']
        exact List.mem_map.mpr ⟨(c, dt), h1', rfl⟩
      · exact ih h.2 h1' h2'

/-! ## Reduction facts about the classifier -/

theorem get_numeric_mk (ln lc : List String) :
    (OverrideDict.mk [("numeric", ln), ("categorical", lc)]).get "numeric" = .ok ln := by
  unfold OverrideDict.get
  simp [List.find?]

theorem get_categorical_mk (ln lc : List String) :
    (OverrideDict.mk [("numeric", ln), ("categorical", lc)]).get "categorical" = .ok lc := by
  unfold OverrideDict.get
  simp [List.find?]

/-- Passing `None` for the overrides behaves exactly like the explicit empty dict. -/
theorem split_none_eq_empty_dict (df : DataFrame) (target : String) :
    ambiguous_columns_split df target none =
      ambiguous_columns_split df target (some ⟨[("numeric", []), ("categorical", [])]⟩) := rfl

/-- Success characterization: on a non-empty frame with a valid target and no
override conflict, the classifier returns views whose column lists are the
resolved sets. -/
theorem split_ok_spec (df : DataFrame) (target : String) (ln lc : List String)
    (hne : df.emptyFrame = false)
    (hconf : ¬ ∃ c ∈ df.columns, c ∈ ln ∧ c ∈ lc)
    (ht : target ∈ df.columns) :
    ∃ res, ambiguous_columns_split df target
        (some ⟨[("numeric", ln), ("categorical", lc)]⟩) = .ok res ∧
      res.numeric.columns = finalNumeric df ln lc target ∧
      res.categorical.columns = finalCategorical df ln lc target := by
  have hov : overlapOf df ln lc = [] := by
    rw [List.eq_nil_iff_forall_not_mem]
    intro c hc
    rw [mem_overlapOf] at hc
    exact hconf ⟨c, hc.1, hc.2⟩
  obtain ⟨nd, hndok, hndcols⟩ :=
    select_ok_of_subset df (finalNumeric df ln lc target)
      (fun n hn => finalNumeric_subset df ln lc target n ht hn)
  obtain ⟨cd, hcdok, hcdcols⟩ :=
    select_ok_of_subset df (finalCategorical df ln lc target)
      (fun n hn => finalCategorical_subset df ln lc target n ht hn)
  refine ⟨⟨nd, cd⟩, ?_, hndcols, hcdcols⟩
  unfold ambiguous_columns_split
  simp only [hne, Bool.false_eq_true, if_false, Option.getD_some,
    get_numeric_mk, get_categorical_mk, hov, List.isEmpty_nil, if_true,
    hndok, hcdok]

/-- Evaluation of the classifier on a non-empty frame with an explicit
two-entry override dict: everything up to the conflict check reduces. -/
theorem split_eval (df : DataFrame) (target : String) (ln lc : List String)
    (hne : df.emptyFrame = false) :
    ambiguous_columns_split df target
        (some ⟨[("numeric", ln), ("categorical", lc)]⟩) =
      (if (overlapOf df ln lc).isEmpty then
        match df.select (finalNumeric df ln lc target),
              df.select (finalCategorical df ln lc target) with
        | .error e, _ => .error e
        | .ok _, .error e => .error e
        | .ok ndf, .ok cdf => .ok ⟨ndf, cdf⟩
      else .error (.conflict (overlapOf df ln lc))) := by
  unfold ambiguous_columns_split
  rw [if_neg (by simp [hne])]
  simp only [Option.getD_some, get_numeric_mk, get_categorical_mk]

theorem select_error_shape (df : DataFrame) (names : List String) (e : PyError)
    (h : df.select names = .error e) : ∃ n, e = .keyNotFound n := by
  unfold DataFrame.select at h
  cases hf : names.find? (fun n => !df.columns.contains n) with
  | some m =>
      rw [hf] at h
      cases h
      exact ⟨m, rfl⟩
  | none => rw [hf] at h; cases h

theorem pyAdd_not_mem (l : List String) (x : String) (hx : x ∉ l) :
    pyAdd l x = l ++ [x] := by
  unfold pyAdd
  rw [if_neg (fun hc => hx ((contains_true_iff l x).mp hc))]

/-- When the target is not a column, projecting the resolved numeric set fails
with `KeyError` on the target (the only name of the set that is missing). -/
theorem select_finalNumeric_missing (df : DataFrame) (ln lc : List String)
    (target : String) (ht : target ∉ df.columns) :
    df.select (finalNumeric df ln lc target) = .error (.keyNotFound target) := by
  unfold finalNumeric
  set base := (pyset (defaultNumericCols df ++ sanitize df ln)).filter
    (fun n => !(sanitize df lc).contains n) with hbase
  have hbsub : ∀ n ∈ base, n ∈ df.columns := by
    intro n hn
    rw [hbase, List.mem_filter] at hn
    rcases List.mem_append.mp ((mem_pyset _ n).mp hn.1) with h | h
    · obtain ⟨dt, hmem, _⟩ := (mem_defaultNumericCols df n).mp h
      exact (mem_columns df n).mpr ⟨dt, hmem⟩
    · exact ((mem_sanitize df ln n).mp h).2
  have htb : target ∉ base := fun h => ht (hbsub _ h)
  rw [pyAdd_not_mem base target htb]
  unfold DataFrame.select
  have h1 : base.find? (fun n => !df.columns.contains n) = none := by
    rw [List.find?_eq_none]
    intro x hx hcontr
    exact ((not_contains_iff df.columns x).mp hcontr) (hbsub x hx)
  have hp : (!df.columns.contains target) = true :=
    (not_contains_iff df.columns target).mpr ht
  have hfind : (base ++ [target]).find? (fun n => !df.columns.contains n) = some target := by
    rw [List.find?_append, h1]
    have h2 : List.find? (fun n => !df.columns.contains n) [target] = some target := by
      simp only [List.find?, hp]
    rw [h2]
    rfl
  rw [hfind]

/-- Same for the resolved categorical set. -/
theorem select_finalCategorical_missing (df : DataFrame) (ln lc : List String)
    (target : String) (ht : target ∉ df.columns) :
    df.select (finalCategorical df ln lc target) = .error (.keyNotFound target) := by
  unfold finalCategorical
  set base := (pyset (defaultCategoricalCols df ++ sanitize df lc)).filter
    (fun n => !(sanitize df ln).contains n) with hbase
  have hbsub : ∀ n ∈ base, n ∈ df.columns := by
    intro n hn
    rw [hbase, List.mem_filter] at hn
    rcases List.mem_append.mp ((mem_pyset _ n).mp hn.1) with h | h
    · obtain ⟨dt, hmem, _⟩ := (mem_defaultCategoricalCols df n).mp h
      exact (mem_columns df n).mpr ⟨dt, hmem⟩
    · exact ((mem_sanitize df lc n).mp h).2
  have htb : target ∉ base := fun h => ht (hbsub _ h)
  rw [pyAdd_not_mem base target htb]
  unfold DataFrame.select
  have h1 : base.find? (fun n => !df.columns.contains n) = none := by
    rw [List.find?_eq_none]
    intro x hx hcontr
    exact ((not_contains_iff df.columns x).mp hcontr) (hbsub x hx)
  have hp : (!df.columns.contains target) = true :=
    (not_contains_iff df.columns target).mpr ht
  have hfind : (base ++ [target]).find? (fun n => !df.columns.contains n) = some target := by
    rw [List.find?_append, h1]
    have h2 : List.find? (fun n => !df.columns.contains n) [target] = some target := by
      simp only [List.find?, hp]
    rw [h2]
    rfl
  rw [hfind]

/-- Dropping a name that is not a column from an override list leaves its
sanitized set unchanged. -/
theorem sanitize_insert_unknown (df : DataFrame) (x : String) (l1 l2 : List String)
    (hx : x ∉ df.columns) :
    sanitize df (l1 ++ x :: l2) = sanitize df (l1 ++ l2) := by
  unfold sanitize
  congr 1
  rw [List.filter_append, List.filter_append, List.filter_cons]
  rw [if_neg (fun hc => hx ((contains_true_iff df.columns x).mp hc))]

/-- The classifier depends on the override lists only through their sanitized
sets. -/
theorem split_congr_sanitized (df : DataFrame) (target : String)
    (ln ln2 lc lc2 : List String)
    (h1 : sanitize df ln = sanitize df ln2) (h2 : sanitize df lc = sanitize df lc2) :
    ambiguous_columns_split df target (some ⟨[("numeric", ln), ("categorical", lc)]⟩) =
      ambiguous_columns_split df target (some ⟨[("numeric", ln2), ("categorical", lc2)]⟩) := by
  cases hne : df.emptyFrame with
  | false =>
      rw [split_eval df target ln lc hne, split_eval df target ln2 lc2 hne]
      unfold overlapOf finalNumeric finalCategorical
      rw [h1, h2]
  | true =>
      unfold ambiguous_columns_split
      rw [if_pos hne, if_pos hne]

/-- A successful classifier call had the target among the columns. -/
theorem split_ok_target_mem (df : DataFrame) (target : String)
    (ambOpt : Option OverrideDict) (res : SplitResult)
    (h : ambiguous_columns_split df target ambOpt = .ok res) :
    target ∈ df.columns := by
  unfold ambiguous_columns_split at h
  split at h
  · cases h
  · split at h
    · cases h
    · cases h
    · rename_i numOv catOv hg1 hg2
      split at h
      · split at h
        · cases h
        · cases h
        · rename_i ndf cdf hsn hsc
          exact select_ok_subset df _ _ hsn target
            (target_mem_finalNumeric df numOv catOv target)
      · cases h

/-! ## Claim theorems for the column classifier -/

/-- C1: for every non-empty dataset (with unique column names, as the data
model requires) whose columns include the target, classifying with no
override returns numeric and categorical views such that the target column is
in both and every non-target column is in exactly one of the two. -/
theorem split_default_partitions_columns (df : DataFrame) (target : String)
    (hne : df.emptyFrame = false) (ht : target ∈ df.columns)
    (hnd : df.columns.Nodup) :
    ∃ res, ambiguous_columns_split df target none = .ok res ∧
      target ∈ res.numeric.columns ∧ target ∈ res.categorical.columns ∧
      ∀ c ∈ df.columns, c ≠ target →
        (c ∈ res.numeric.columns ↔ c ∉ res.categorical.columns) := by
  have hconf : ¬ ∃ c ∈ df.columns, c ∈ ([] : List String) ∧ c ∈ ([] : List String) := by
    rintro ⟨c, -, hc, -⟩
    cases hc
  obtain ⟨res, hok, hn, hc⟩ := split_ok_spec df target [] [] hne hconf ht
  have hnd' : (df.header.map Prod.fst).Nodup := hnd
  have hnum_iff : ∀ x, x ∈ finalNumeric df [] [] target ↔
      x = target ∨ x ∈ defaultNumericCols df := by
    intro x
    rw [mem_finalNumeric]
    constructor
    · rintro (rfl | ⟨h1 | ⟨h1, -⟩, -⟩)
      · exact Or.inl rfl
      · exact Or.inr h1
      · cases h1
    · rintro (rfl | h1)
      · exact Or.inl rfl
      · exact Or.inr ⟨Or.inl h1, fun hcc => nomatch hcc.1⟩
  have hcat_iff : ∀ x, x ∈ finalCategorical df [] [] target ↔
      x = target ∨ x ∈ defaultCategoricalCols df := by
    intro x
    rw [mem_finalCategorical]
    constructor
    · rintro (rfl | ⟨h1 | ⟨h1, -⟩, -⟩)
      · exact Or.inl rfl
      · exact Or.inr h1
      · cases h1
    · rintro (rfl | h1)
      · exact Or.inl rfl
      · exact Or.inr ⟨Or.inl h1, fun hcc => nomatch hcc.1⟩
  refine ⟨res, by rw [split_none_eq_empty_dict]; exact hok, ?_, ?_, ?_⟩
  · rw [hn]; exact target_mem_finalNumeric df [] [] target
  · rw [hc]; exact target_mem_finalCategorical df [] [] target
  · intro c hcm hct
    rw [hn, hc, hnum_iff, hcat_iff, mem_defaultNumericCols, mem_defaultCategoricalCols]
    have hDNDC : (∃ dt, (c, dt) ∈ df.header ∧ dt.isNumber = true) ↔
        ¬ ∃ dt, (c, dt) ∈ df.header ∧ dt.isNumber = false := by
      constructor
      · rintro ⟨dt, hdt, hnum⟩ ⟨dt2, hdt2, hnum2⟩
        rw [nodup_keys_unique hnd' hdt hdt2] at hnum
        rw [hnum] at hnum2
        cases hnum2
      · intro hno
        obtain ⟨dt, hdt⟩ := (mem_columns df c).mp hcm
        cases hb : dt.isNumber with
        | true => exact ⟨dt, hdt, hb⟩
        | false => exact absurd ⟨dt, hdt, hb⟩ hno
    constructor
    · rintro (rfl | hdn)
      · exact absurd rfl hct
      · rintro (hcteq | hdc)
        · exact hct hcteq
        · exact (hDNDC.mp hdn) ⟨hdc.choose, hdc.choose_spec⟩
    · intro hno
      refine Or.inr (hDNDC.mpr ?_)
      intro hdc
      exact hno (Or.inr hdc)

/-- C1 witness at the spec's running example. -/
theorem split_default_partitions_columns_witness :
    ∃ res, ambiguous_columns_split dfExample "track_id" none = .ok res ∧
      "track_id" ∈ res.numeric.columns ∧ "track_id" ∈ res.categorical.columns ∧
      ∀ c ∈ dfExample.columns, c ≠ "track_id" →
        (c ∈ res.numeric.columns ↔ c ∉ res.categorical.columns) :=
  split_default_partitions_columns dfExample "track_id" (by decide) (by decide)
    (by decide)

/-- C2: for every non-empty dataset containing the target and every
non-conflicting override pair, the classifier succeeds and the target column
is a column of both views. -/
theorem split_target_in_both_views (df : DataFrame) (target : String)
    (ln lc : List String) (hne : df.emptyFrame = false) (ht : target ∈ df.columns)
    (hconf : ¬ ∃ c ∈ df.columns, c ∈ ln ∧ c ∈ lc) :
    ∃ res, ambiguous_columns_split df target
        (some ⟨[("numeric", ln), ("categorical", lc)]⟩) = .ok res ∧
      target ∈ res.numeric.columns ∧ target ∈ res.categorical.columns := by
  obtain ⟨res, hok, hn, hc⟩ := split_ok_spec df target ln lc hne hconf ht
  exact ⟨res, hok, hn ▸ target_mem_finalNumeric df ln lc target,
    hc ▸ target_mem_finalCategorical df ln lc target⟩

/-- C2 witness: the target "track_id" is overridden into categorical only,
yet still lands in both views. -/
theorem split_target_in_both_views_witness :
    ∃ res, ambiguous_columns_split dfExample "track_id"
        (some ⟨[("numeric", []), ("categorical", ["track_id"])]⟩) = .ok res ∧
      "track_id" ∈ res.numeric.columns ∧ "track_id" ∈ res.categorical.columns :=
  split_target_in_both_views dfExample "track_id" [] ["track_id"] (by decide)
    (by decide) (by decide)

/-- C3: on a non-empty dataset, the classifier raises the conflict
`ValueError` iff some actual dataset column appears in both override lists;
names absent from the dataset appearing in both lists never trigger it. -/
theorem split_conflict_error_iff (df : DataFrame) (target : String)
    (ln lc : List String) (hne : df.emptyFrame = false) :
    isConflictResult (ambiguous_columns_split df target
        (some ⟨[("numeric", ln), ("categorical", lc)]⟩)) = true ↔
      ∃ c ∈ df.columns, c ∈ ln ∧ c ∈ lc := by
  rw [split_eval df target ln lc hne]
  by_cases h : ∃ c ∈ df.columns, c ∈ ln ∧ c ∈ lc
  · obtain ⟨c, hc1, hc2, hc3⟩ := h
    have hov : c ∈ overlapOf df ln lc := (mem_overlapOf df ln lc c).mpr ⟨hc1, hc2, hc3⟩
    have hne2 : (overlapOf df ln lc).isEmpty = false := by
      cases hl : overlapOf df ln lc with
      | nil => rw [hl] at hov; cases hov
      | cons a as => rfl
    rw [if_neg (by simp [hne2])]
    exact iff_of_true rfl ⟨c, hc1, hc2, hc3⟩
  · have hov : overlapOf df ln lc = [] := by
      rw [List.eq_nil_iff_forall_not_mem]
      intro c hc
      rw [mem_overlapOf] at hc
      exact h ⟨c, hc.1, hc.2⟩
    rw [hov, if_pos (show ([] : List String).isEmpty = true from rfl)]
    refine iff_of_false ?_ h
    cases hsn : df.select (finalNumeric df ln lc target) with
    | error e =>
        obtain ⟨n, rfl⟩ := select_error_shape df _ e hsn
        simp [isConflictResult]
    | ok ndf =>
        cases hsc : df.select (finalCategorical df ln lc target) with
        | error e =>
            obtain ⟨n, rfl⟩ := select_error_shape df _ e hsc
            simp [isConflictResult]
        | ok cdf => simp [isConflictResult]

/-- C3 witness: requesting "popularity" in both lists is a conflict on the
example frame. -/
theorem split_conflict_error_iff_witness :
    isConflictResult (ambiguous_columns_split dfExample "track_id"
        (some ⟨[("numeric", ["popularity"]), ("categorical", ["popularity"])]⟩)) = true ↔
      ∃ c ∈ dfExample.columns, c ∈ ["popularity"] ∧ c ∈ ["popularity"] :=
  split_conflict_error_iff dfExample "track_id" ["popularity"] ["popularity"]
    (by decide)

/-- C4 (code bug): the docstring and spec claim boolean columns count as
numeric, but pandas `select_dtypes(include="number")` excludes boolean
dtypes, so a non-target boolean column lands in the categorical view and not
in the numeric view. -/
theorem split_bool_column_in_categorical_view :
    ∃ res, ambiguous_columns_split dfBoolInput "t" none = .ok res ∧
      "flag" ∉ res.numeric.columns ∧ "flag" ∈ res.categorical.columns := by
  refine ⟨_, rfl, ?_, ?_⟩ <;> decide

/-- C5: on a non-empty dataset with valid target and no conflict, every
non-target dataset column named in an override list is classified per that
override: in the requested view and not in the opposite one. -/
theorem split_overrides_win (df : DataFrame) (target : String)
    (ln lc : List String) (hne : df.emptyFrame = false) (ht : target ∈ df.columns)
    (hconf : ¬ ∃ c ∈ df.columns, c ∈ ln ∧ c ∈ lc) :
    ∃ res, ambiguous_columns_split df target
        (some ⟨[("numeric", ln), ("categorical", lc)]⟩) = .ok res ∧
      ∀ c ∈ df.columns, c ≠ target →
        (c ∈ ln → c ∈ res.numeric.columns ∧ c ∉ res.categorical.columns) ∧
        (c ∈ lc → c ∈ res.categorical.columns ∧ c ∉ res.numeric.columns) := by
  obtain ⟨res, hok, hn, hc⟩ := split_ok_spec df target ln lc hne hconf ht
  refine ⟨res, hok, fun c hcm hct => ⟨fun hcln => ?_, fun hclc => ?_⟩⟩
  · have hnlc : c ∉ lc := fun h => hconf ⟨c, hcm, hcln, h⟩
    constructor
    · rw [hn, mem_finalNumeric]
      exact Or.inr ⟨Or.inr ⟨hcln, hcm⟩, fun h => hnlc h.1⟩
    · rw [hc, mem_finalCategorical]
      rintro (rfl | ⟨-, hnot⟩)
      · exact hct rfl
      · exact hnot ⟨hcln, hcm⟩
  · have hnln : c ∉ ln := fun h => hconf ⟨c, hcm, h, hclc⟩
    constructor
    · rw [hc, mem_finalCategorical]
      exact Or.inr ⟨Or.inr ⟨hclc, hcm⟩, fun h => hnln h.1⟩
    · rw [hn, mem_finalNumeric]
      rintro (rfl | ⟨-, hnot⟩)
      · exact hct rfl
      · exact hnot ⟨hclc, hcm⟩

/-- C5 witness: "popularity" forced categorical and "genre" forced numeric on
the example frame. -/
theorem split_overrides_win_witness :
    ∃ res, ambiguous_columns_split dfExample "track_id"
        (some ⟨[("numeric", ["genre"]), ("categorical", ["popularity"])]⟩) = .ok res ∧
      ∀ c ∈ dfExample.columns, c ≠ "track_id" →
        (c ∈ ["genre"] → c ∈ res.numeric.columns ∧ c ∉ res.categorical.columns) ∧
        (c ∈ ["popularity"] → c ∈ res.categorical.columns ∧ c ∉ res.numeric.columns) :=
  split_overrides_win dfExample "track_id" ["genre"] ["popularity"] (by decide)
    (by decide) (by decide)

/-- C6: inserting a name that is not a dataset column anywhere into either
override list leaves the classifier's outcome unchanged (and in particular
raises no error that the call without it would not raise). -/
theorem split_unknown_names_ignored (df : DataFrame) (target x : String)
    (la lb other : List String) (hx : x ∉ df.columns) :
    (ambiguous_columns_split df target
        (some ⟨[("numeric", la ++ x :: lb), ("categorical", other)]⟩) =
      ambiguous_columns_split df target
        (some ⟨[("numeric", la ++ lb), ("categorical", other)]⟩)) ∧
    (ambiguous_columns_split df target
        (some ⟨[("numeric", other), ("categorical", la ++ x :: lb)]⟩) =
      ambiguous_columns_split df target
        (some ⟨[("numeric", other), ("categorical", la ++ lb)]⟩)) :=
  ⟨split_congr_sanitized df target _ _ _ _ (sanitize_insert_unknown df x la lb hx) rfl,
   split_congr_sanitized df target _ _ _ _ rfl (sanitize_insert_unknown df x la lb hx)⟩

/-- C6 witness: "nonexistent_col" added to either override list of the
example frame changes nothing. -/
theorem split_unknown_names_ignored_witness :
    (ambiguous_columns_split dfExample "track_id"
        (some ⟨[("numeric", [] ++ "nonexistent_col" :: []), ("categorical", ["genre"])]⟩) =
      ambiguous_columns_split dfExample "track_id"
        (some ⟨[("numeric", [] ++ []), ("categorical", ["genre"])]⟩)) ∧
    (ambiguous_columns_split dfExample "track_id"
        (some ⟨[("numeric", ["genre"]), ("categorical", [] ++ "nonexistent_col" :: [])]⟩) =
      ambiguous_columns_split dfExample "track_id"
        (some ⟨[("numeric", ["genre"]), ("categorical", [] ++ [])]⟩)) :=
  split_unknown_names_ignored dfExample "track_id" "nonexistent_col" [] [] ["genre"]
    (by decide)

/-- C7: on an empty dataset (no rows or no columns) the classifier raises the
empty-input `ValueError` for any override argument whatsoever — including a
malformed or conflicting dict — before any override processing. -/
theorem split_empty_always_errors (df : DataFrame) (target : String)
    (amb : Option OverrideDict) (he : df.emptyFrame = true) :
    ambiguous_columns_split df target amb = .error .emptyInput := by
  unfold ambiguous_columns_split
  rw [if_pos he]

/-- C7 witness: a zero-row frame with a dict that is both malformed (missing
the "categorical" key) and self-conflicting still gets the empty-input
error. -/
theorem split_empty_always_errors_witness :
    ambiguous_columns_split dfNoRows "g"
        (some ⟨[("numeric", ["g", "g"])]⟩) = .error .emptyInput :=
  split_empty_always_errors dfNoRows "g" (some ⟨[("numeric", ["g", "g"])]⟩)
    (by decide)

/-- C10: a classifier call that returns successfully had the target among the
dataset's columns; and on a non-empty dataset with a conflict-free override
pair, a missing target makes the classifier fail with a key-lookup error on
the target (not one of the documented value errors). -/
theorem split_success_needs_target (df : DataFrame) (target : String) :
    (∀ ambOpt : Option OverrideDict,
      (∃ res, ambiguous_columns_split df target ambOpt = .ok res) →
        target ∈ df.columns) ∧
    (∀ ln lc : List String, df.emptyFrame = false → target ∉ df.columns →
      (¬ ∃ c ∈ df.columns, c ∈ ln ∧ c ∈ lc) →
      ambiguous_columns_split df target
          (some ⟨[("numeric", ln), ("categorical", lc)]⟩) =
        .error (.keyNotFound target)) := by
  constructor
  · rintro ambOpt ⟨res, h⟩
    exact split_ok_target_mem df target ambOpt res h
  · intro ln lc hne hmiss hconf
    have hov : overlapOf df ln lc = [] := by
      rw [List.eq_nil_iff_forall_not_mem]
      intro c hc
      rw [mem_overlapOf] at hc
      exact hconf ⟨c, hc.1, hc.2⟩
    rw [split_eval df target ln lc hne, hov,
      if_pos (show ([] : List String).isEmpty = true from rfl),
      select_finalNumeric_missing df ln lc target hmiss,
      select_finalCategorical_missing df ln lc target hmiss]

/-- C10 witness: a successful call on the small frame, and a `KeyError` when
the target is absent. -/
theorem split_success_needs_target_witness :
    "t" ∈ dfSmall.columns ∧
    ambiguous_columns_split dfSmall "missing"
        (some ⟨[("numeric", []), ("categorical", [])]⟩) =
      .error (.keyNotFound "missing") :=
  ⟨(split_success_needs_target dfSmall "t").1 none ⟨_, rfl⟩,
   (split_success_needs_target dfSmall "missing").2 [] [] (by decide) (by decide)
     (by decide)⟩

/-! ## Claim theorems for the categorical plot builder -/

/-- The plotting loop produces two charts per feature; the frequency chart at
position `2k` is a bar chart for the k-th feature, built from the rows kept by
that feature's top values as computed on the cumulatively filtered data. -/
theorem catPlotLoop_freq_charts (target : String) (ct : Bool) (mc : Nat)
    (feats : List String) (df : DataFrame) :
    (catPlotLoop target ct mc feats df).length = 2 * feats.length ∧
    ∀ k, k < feats.length →
      ((catPlotLoop target ct mc feats df).getD (2 * k) defaultChart).mark = "bar" ∧
      ((catPlotLoop target ct mc feats df).getD (2 * k) defaultChart).feature =
        feats.getD k "" ∧
      ((catPlotLoop target ct mc feats df).getD (2 * k) defaultChart).data.rows =
        claimFreqRows (chainFiltered mc df (feats.take k)) (feats.getD k "") mc := by
  induction feats generalizing df with
  | nil => exact ⟨rfl, fun k hk => absurd hk (Nat.not_lt_zero k)⟩
  | cons f rest ih =>
      constructor
      · have hlen := (ih (df.filterIsin f (top_values (df.colValues f) mc))).1
        simp only [catPlotLoop, List.length_cons, hlen, List.length_cons]
        omega
      · intro k hk
        cases k with
        | zero =>
            refine ⟨rfl, rfl, ?_⟩
            rfl
        | succ k2 =>
            have hidx : 2 * (k2 + 1) = 2 * k2 + 1 + 1 := by omega
            have hk2 : k2 < rest.length := by
              simpa using Nat.lt_of_succ_lt_succ hk
            have := (ih (df.filterIsin f (top_values (df.colValues f) mc))).2 k2 hk2
            simp only [catPlotLoop, hidx, List.getD_cons_succ, List.take_succ_cons,
              chainFiltered]
            exact this

/-- C9 (amended): for every valid call with an explicit non-empty feature
list, the builder succeeds with two charts per feature, and the frequency bar
chart of the k-th feature is built from exactly the rows of the dataset as
cumulatively filtered by the preceding features — so the claim as stated holds
for the first feature only, whose chart uses the supplied dataset. -/
theorem catplot_freq_charts_cumulative (df : DataFrame) (target : String)
    (ct : Bool) (mc : Nat) (feats : List String)
    (hne : df.emptyFrame = false) (ht : target ∈ df.columns)
    (hfe : feats ≠ []) (hin : ∀ f ∈ feats, f ∈ df.columns) :
    ∃ charts, categorical_plot df target ct mc (.listArg feats) = .ok charts ∧
      charts.length = 2 * feats.length ∧
      ∀ k, k < feats.length →
        (charts.getD (2 * k) defaultChart).mark = "bar" ∧
        (charts.getD (2 * k) defaultChart).feature = feats.getD k "" ∧
        (charts.getD (2 * k) defaultChart).data.rows =
          claimFreqRows (chainFiltered mc df (feats.take k)) (feats.getD k "") mc := by
  have hct : df.columns.contains target = true := (contains_true_iff _ _).mpr ht
  have hok : categorical_plot df target ct mc (.listArg feats) =
      .ok (catPlotLoop target ct mc feats df) := by
    unfold categorical_plot
    rw [if_neg (by simp [hne]),
      if_neg (fun hcontr => ((not_contains_iff df.columns target).mp hcontr) ht)]
    have hres : resolveFeatures df target (.listArg feats) = .ok (.listArg feats) := by
      unfold resolveFeatures
      rw [if_neg (by simp [PyFeatureArg.isNone])]
      have hlz : feats.length ≠ 0 := fun h => hfe (List.eq_nil_of_length_eq_zero h)
      simp [PyFeatureArg.pyLen, hlz]
    have hfe2 : feats.isEmpty = false := by
      cases feats with
      | nil => exact absurd rfl hfe
      | cons a as => rfl
    have hfind : feats.find? (fun f => !df.columns.contains f) = none := by
      rw [List.find?_eq_none]
      intro x hx hcontr
      exact ((not_contains_iff df.columns x).mp hcontr) (hin x hx)
    simp only [hres]
    rw [if_neg (by simp [hfe2]), hfind]
  exact ⟨_, hok, (catPlotLoop_freq_charts target ct mc feats df).1,
    (catPlotLoop_freq_charts target ct mc feats df).2⟩

/-- C9 witness: a valid two-feature call on the crafted frame. -/
theorem catplot_freq_charts_cumulative_witness :
    ∃ charts, categorical_plot dfTwoFeatures "t" false 1 (.listArg ["f1", "f2"]) = .ok charts ∧
      charts.length = 2 * (["f1", "f2"] : List String).length ∧
      ∀ k, k < (["f1", "f2"] : List String).length →
        (charts.getD (2 * k) defaultChart).mark = "bar" ∧
        (charts.getD (2 * k) defaultChart).feature = (["f1", "f2"] : List String).getD k "" ∧
        (charts.getD (2 * k) defaultChart).data.rows =
          claimFreqRows (chainFiltered 1 dfTwoFeatures ((["f1", "f2"] : List String).take k))
            ((["f1", "f2"] : List String).getD k "") 1 :=
  catplot_freq_charts_cumulative dfTwoFeatures "t" false 1 ["f1", "f2"]
    (by decide) (by decide) (by decide) (by decide)

/-- C9 counterexample: on the crafted frame the second feature's frequency
chart is not built from the rows its top value over the *supplied* dataset
would select — the loop has already filtered the frame by the first
feature. -/
theorem catplot_second_feature_not_independent :
    ∃ charts, categorical_plot dfTwoFeatures "t" false 1 (.listArg ["f1", "f2"]) = .ok charts ∧
      (charts.getD 2 defaultChart).feature = "f2" ∧
      (charts.getD 2 defaultChart).data.rows ≠ claimFreqRows dfTwoFeatures "f2" 1 := by
  refine ⟨_, rfl, ?_, ?_⟩ <;> decide

/-- C8 (amended): a feature argument that is neither a list nor None makes
`categorical_plot` raise a TypeError — unless the value has length zero (empty
string, empty tuple), in which case it is silently replaced by the default
feature list and no TypeError is raised. -/
theorem catplot_nonlist_type_error (df : DataFrame) (target : String)
    (ct : Bool) (mc : Nat) (fa : PyFeatureArg)
    (hne : df.emptyFrame = false) (ht : target ∈ df.columns)
    (hnl : fa.isList = false) (hnn : fa.isNone = false)
    (hlen : fa.pyLen ≠ .ok 0) :
    ∃ msg, categorical_plot df target ct mc fa = .error (.typeError msg) := by
  have hct : df.columns.contains target = true := (contains_true_iff _ _).mpr ht
  unfold categorical_plot
  rw [if_neg (by simp [hne]),
    if_neg (fun hcontr => ((not_contains_iff df.columns target).mp hcontr) ht)]
  cases fa with
  | noneArg => simp [PyFeatureArg.isNone] at hnn
  | listArg xs => simp [PyFeatureArg.isList] at hnl
  | strArg s =>
      have hs : s.length ≠ 0 := by
        intro h
        exact hlen (by simp [PyFeatureArg.pyLen, h])
      refine ⟨"categorical_features must be a list", ?_⟩
      unfold resolveFeatures
      rw [if_neg (by simp [PyFeatureArg.isNone])]
      simp [PyFeatureArg.pyLen, hs]
  | tupleArg xs =>
      have hs : xs.length ≠ 0 := by
        intro h
        exact hlen (by simp [PyFeatureArg.pyLen, h])
      refine ⟨"categorical_features must be a list", ?_⟩
      unfold resolveFeatures
      rw [if_neg (by simp [PyFeatureArg.isNone])]
      simp [PyFeatureArg.pyLen, hs]
  | intArg n =>
      refine ⟨"object of type int has no len()", ?_⟩
      unfold resolveFeatures
      rw [if_neg (by simp [PyFeatureArg.isNone])]
      simp [PyFeatureArg.pyLen]

/-- C8 witness: a non-empty string feature argument on the small frame. -/
theorem catplot_nonlist_type_error_witness :
    ∃ msg, categorical_plot dfSmall "t" false 10 (.strArg "x") =
      .error (.typeError msg) :=
  catplot_nonlist_type_error dfSmall "t" false 10 (.strArg "x") (by decide)
    (by decide) (by decide) (by decide) (by decide)

/-- C8 counterexample: an empty string — neither a list nor the omitted
default — is accepted without any error: the length-zero replacement kicks in
before the isinstance check. -/
theorem catplot_empty_string_accepted :
    ∃ charts, categorical_plot dfSmall "t" false 10 (.strArg "") = .ok charts :=
  ⟨_, rfl⟩

end EDA
